import Mathlib

/-!
Verification of the Lesson-Planner application core (src/main.py).

The development shallowly embeds the pieces of the program the
specification talks about:

* Python `textwrap.dedent` (used on both prompt templates), modelled
  character-exactly on `List Char`: whitespace-only lines are first
  normalized to empty lines, the margin is the longest common leading
  run of spaces/tabs over all remaining non-empty lines, and that
  margin is stripped from the start of every line that carries it.
* the two prompt builders `build_lesson_prompt` and `build_quiz_prompt`
  (f-string templates rendered as explicit string concatenation,
  chunked at the newlines of the source literal);
* the two-stage generation workflow over `st.session_state`
  (`lesson_md` / `quiz_md` keys), with the remote completion call
  abstracted as a function `String → Except String String` and the
  list of prompts actually sent recorded in the result;
* the credential lookup `_get_api_key` / `get_llm` / `call_llm`;
* the export block (markdown / txt / best-effort PDF).
-/

/-! ### Line splitting and joining (Python `str.split("\n")` semantics) -/

/-- Split a character list at every newline. Mirrors Python
`text.split("\n")`: the result always has one more entry than the
number of newlines, so it is never empty. -/
def splitLines : List Char → List (List Char)
  | [] => [[]]
  | c :: rest =>
    if c = '\n' then [] :: splitLines rest
    else
      match splitLines rest with
      | [] => [[c]]
      | l :: ls => (c :: l) :: ls

/-- Join lines with newlines; left inverse of `splitLines`. -/
def joinLines : List (List Char) → List Char
  | [] => []
  | [l] => l
  | l :: l' :: ls => l ++ '\n' :: joinLines (l' :: ls)

/-! ### The pieces of `textwrap.dedent` -/

/-- A space or tab, the characters the dedent margin is made of. -/
def isWS (c : Char) : Bool := c = ' ' || c = '\t'

/-- A line consisting solely of whitespace, in the sense of the regex
`^[ \t]+$` used by `textwrap.dedent` (at least one character, all of
them spaces or tabs). -/
def isLineWS (l : List Char) : Bool := !l.isEmpty && l.all isWS

/-- Python `textwrap.dedent` first replaces whitespace-only lines by
empty lines. -/
def normalizeLine (l : List Char) : List Char := if isLineWS l then [] else l

/-- Leading run of spaces and tabs of a line. -/
def leadingWS (l : List Char) : List Char := l.takeWhile isWS

/-- Longest common prefix of two character lists. -/
def lcp : List Char → List Char → List Char
  | a :: as, b :: bs => if a = b then a :: lcp as bs else []
  | _, _ => []

/-- The margin `textwrap.dedent` computes: the longest common prefix of
the leading whitespace runs of all non-empty (already normalized)
lines. -/
def marginOf (lines : List (List Char)) : List Char :=
  match (lines.filter (fun l => !l.isEmpty)).map leadingWS with
  | [] => []
  | i :: is => is.foldl lcp i

/-- Strip the margin from the start of a line when it is present
(mirrors `re.sub(r"(?m)^" + margin, "", text)`). -/
def stripLine (m l : List Char) : List Char :=
  if m.isPrefixOf l then l.drop m.length else l

/-- Character-level model of `textwrap.dedent`. -/
def dedentChars (cs : List Char) : List Char :=
  let lines := (splitLines cs).map normalizeLine
  joinLines (lines.map (stripLine (marginOf lines)))

/-- Python `textwrap.dedent`, as applied by both prompt builders. -/
def dedent (s : String) : String := ⟨dedentChars s.data⟩

/-! ### Prompt builders (src/main.py, `build_lesson_prompt` /
`build_quiz_prompt`) -/

/-- The difficulty lookup table of `build_lesson_prompt`:
`{"Easy": ..., "Medium": ..., "Hard": ...}.get(difficulty, fallback)`. -/
def difficulty_guidance (difficulty : String) : String :=
  if difficulty = "Easy" then
    "Use simple language, foundational explainers, and concrete everyday examples."
  else if difficulty = "Medium" then
    "Use balanced depth, some technical vocabulary, and 1–2 brief real-world examples."
  else if difficulty = "Hard" then
    "Use advanced terminology, deeper conceptual links, and include extension tasks for high achievers."
  else
    "Use balanced language and depth."

/-- The lesson-plan f-string of `build_lesson_prompt`, before `dedent`.
The concatenation below is chunked at the newlines of the source
literal; its value is character-for-character the Python f-string. -/
def lesson_prompt_raw (subject topic grade duration learning_objectives
    customization difficulty language : String) : String :=
  "\n" ++
  "    You are an expert instructional designer and teacher. Create a detailed, classroom-ready LESSON PLAN." ++ "\n" ++
  "\n" ++
  "    Constraints & format:" ++ "\n" ++
  "    - Write the ENTIRE output in " ++ language ++ "." ++ "\n" ++
  "    - Tailor to grade/level: " ++ grade ++ "\n" ++
  "    - Total duration: " ++ duration ++ "\n" ++
  "    - Difficulty level: " ++ difficulty ++ ". " ++ difficulty_guidance difficulty ++ "\n" ++
  "    - The lesson must be fun, practical, and interactive." ++ "\n" ++
  "    - Return ONLY Markdown (no code fences). Use headings, bullets, and tables where helpful." ++ "\n" ++
  "\n" ++
  "    Required sections (use clear Markdown headings):" ++ "\n" ++
  "    1. Title & Overview (1–2 sentences)" ++ "\n" ++
  "    2. Learning Objectives (bulleted, measurable)" ++ "\n" ++
  "    3. Required Materials (bulleted)" ++ "\n" ++
  "    4. Prior Knowledge (short)" ++ "\n" ++
  "    5. Lesson Flow with Time Boxes (table: Step | Time | What to do | Teacher notes)" ++ "\n" ++
  "    6. Interactive Activities (2–3 activities; include clear instructions)" ++ "\n" ++
  "    7. Differentiation & Accommodations (for mixed ability learners)" ++ "\n" ++
  "    8. Assessment (formative + one quick exit ticket)" ++ "\n" ++
  "    9. Homework or Extension" ++ "\n" ++
  "    10. Safety/Notes (if applicable)" ++ "\n" ++
  "\n" ++
  "    Subject: " ++ subject ++ "\n" ++
  "    Topic: " ++ topic ++ "\n" ++
  "    Learning Objectives: " ++ learning_objectives ++ "\n" ++
  "    Customization request: " ++ customization ++ "\n" ++
  "    "

/-- `build_lesson_prompt` from src/main.py: the f-string above passed
through `textwrap.dedent`. -/
def build_lesson_prompt (subject topic grade duration learning_objectives
    customization difficulty language : String) : String :=
  dedent (lesson_prompt_raw subject topic grade duration learning_objectives
    customization difficulty language)

/-- The quiz f-string of `build_quiz_prompt`, before `dedent`. -/
def quiz_prompt_raw (lesson_plan_md grade language difficulty : String)
    (num_questions : Nat) : String :=
  "\n" ++
  "    You are an assessment designer. Based ONLY on the lesson plan content below, create a quiz." ++ "\n" ++
  "\n" ++
  "    - Number of questions: " ++ toString num_questions ++ "\n" ++
  "    - Difficulty: " ++ difficulty ++ "\n" ++
  "    - Grade/Level: " ++ grade ++ "\n" ++
  "    - Language: " ++ language ++ "\n" ++
  "    - Mix question types: multiple choice, short answer, and 1 challenge question." ++ "\n" ++
  "    - For multiple choice, include 4 options labeled A–D." ++ "\n" ++
  "    - Provide an **Answer Key** at the end under a collapsible details block." ++ "\n" ++
  "    - Return the quiz as clean Markdown (no code fences)." ++ "\n" ++
  "\n" ++
  "    LESSON PLAN START" ++ "\n" ++
  "    ---" ++ "\n" ++
  "    " ++ lesson_plan_md ++ "\n" ++
  "    ---" ++ "\n" ++
  "    LESSON PLAN END" ++ "\n" ++
  "    "

/-- `build_quiz_prompt` from src/main.py. -/
def build_quiz_prompt (lesson_plan_md grade language difficulty : String)
    (num_questions : Nat) : String :=
  dedent (quiz_prompt_raw lesson_plan_md grade language difficulty num_questions)

/-! ### The workflow state machine

The Streamlit script keeps at most two artifacts in
`st.session_state`: the key `lesson_md` (the lesson markdown) and the
key `quiz_md` (the quiz markdown). The three transitions of the
specification correspond to the lesson-generation handler
(`if generate:` block), the quiz-generation handler (`Create Quiz from
this Lesson` button, only reachable when `lesson_md` is present), and
the reset button (`st.session_state.clear()`).

The remote completion call is abstracted as a function
`llm : String → Except String String`; the prompts actually handed to
`call_llm` during a transition are recorded in the `calls` field of the
result, so a transition that makes no remote call has `calls = []`. -/

/-- The two optional artifacts held in `st.session_state`. -/
structure WorkflowState where
  lesson_md : Option String
  quiz_md : Option String
deriving DecidableEq, Repr

/-- The error taxonomy of the specification, mapped onto the observable
failure behaviours of src/main.py: `ValidationError` is the
`st.warning` path of the lesson handler, `GenerationError` is the
`st.error(f"LLM error: ...")` path of either handler (carrying the
underlying cause), and `PreconditionError` is the quiz request outside
a lesson-holding state (the quiz button is only rendered when
`lesson_md` is present, so the code guards the operation rather than
emitting a message). -/
inductive WErr where
  | ValidationError : WErr
  | PreconditionError : WErr
  | GenerationError : String → WErr
deriving DecidableEq, Repr

/-- Result of one workflow transition: the new session state, the
surfaced error (if any), and the prompts sent to the completion
client. -/
structure StepResult where
  state : WorkflowState
  err : Option WErr
  calls : List String
deriving DecidableEq, Repr

/-- The form fields read by the lesson-generation handler. -/
structure InputSet where
  subject : String
  topic : String
  grade : String
  duration : String
  learning_objectives : String
  customization : String
  difficulty : String
  language : String
deriving DecidableEq, Repr

/-- Python `all([subject, topic, grade, duration, learning_objectives])`:
all five required fields truthy, i.e. non-empty. -/
def requiredFilled (inp : InputSet) : Bool :=
  !(inp.subject == "") && !(inp.topic == "") && !(inp.grade == "") &&
    !(inp.duration == "") && !(inp.learning_objectives == "")

/-- The lesson prompt built by the lesson handler for a given input. -/
def lessonPromptOf (inp : InputSet) : String :=
  build_lesson_prompt inp.subject inp.topic inp.grade inp.duration
    inp.learning_objectives inp.customization inp.difficulty inp.language

/-- The lesson-generation handler (src/main.py, `if generate:` block):
validation, then `call_llm`; on success `lesson_md` is set to the
returned text and `quiz_md` is popped; on exception `st.error` is shown
and the session state is left untouched. -/
def requestLesson (st : WorkflowState) (inp : InputSet)
    (llm : String → Except String String) : StepResult :=
  if !requiredFilled inp then
    { state := st, err := some WErr.ValidationError, calls := [] }
  else
    let prompt := lessonPromptOf inp
    match llm prompt with
    | Except.ok lesson_md =>
        { state := { lesson_md := some lesson_md, quiz_md := none },
          err := none, calls := [prompt] }
    | Except.error e =>
        { state := st, err := some (WErr.GenerationError e), calls := [prompt] }

/-- The quiz-generation handler (src/main.py, `Create Quiz from this
Lesson` button): only reachable when `lesson_md` is in the session
state; builds the quiz prompt from the stored lesson text and the
current sidebar values; on success sets `quiz_md`, on exception leaves
the session state untouched. -/
def requestQuiz (st : WorkflowState) (grade language difficulty : String)
    (num_questions : Nat) (llm : String → Except String String) : StepResult :=
  match st.lesson_md with
  | none => { state := st, err := some WErr.PreconditionError, calls := [] }
  | some lesson =>
    let prompt := build_quiz_prompt lesson grade language difficulty num_questions
    match llm prompt with
    | Except.ok quiz_md =>
        { state := { st with quiz_md := some quiz_md }, err := none,
          calls := [prompt] }
    | Except.error e =>
        { state := st, err := some (WErr.GenerationError e), calls := [prompt] }

/-- The reset button: `st.session_state.clear()`. -/
def resetWorkflow : WorkflowState := { lesson_md := none, quiz_md := none }

/-- One step of the workflow: any transition of the state machine, with
any inputs and any completion-client behaviour. -/
inductive WStep : WorkflowState → WorkflowState → Prop where
  | lesson (st : WorkflowState) (inp : InputSet)
      (llm : String → Except String String) :
      WStep st (requestLesson st inp llm).state
  | quiz (st : WorkflowState) (grade language difficulty : String)
      (num_questions : Nat) (llm : String → Except String String) :
      WStep st (requestQuiz st grade language difficulty num_questions llm).state
  | reset (st : WorkflowState) : WStep st resetWorkflow

/-- The presence half of the artifact invariant: a quiz artifact is
only ever held together with a lesson artifact. -/
def quizNeedsLesson (st : WorkflowState) : Prop :=
  st.quiz_md.isSome → st.lesson_md.isSome

/-! ### Credential lookup and the completion client
(src/main.py, `_get_api_key` / `get_llm` / `call_llm`) -/

/-- Python `a or b` specialised to `os.getenv` results: the left
operand wins when it is truthy (set and non-empty). -/
def pyOr (a : Option String) (b : String) : String :=
  match a with
  | some s => if s = "" then b else s
  | none => b

/-- `_get_api_key`: `os.getenv("GROQ_API_KEY") or os.getenv("key") or ""`,
over an abstract process environment. -/
def get_api_key (env : String → Option String) : String :=
  pyOr (env "GROQ_API_KEY") (pyOr (env "key") "")

/-- The constructed completion client (model name and credential). -/
structure LLMClient where
  model : String
  groq_api_key : String
deriving DecidableEq, Repr

/-- `get_llm`: raises `RuntimeError` when no credential resolves,
otherwise builds the `ChatGroq` client. The `st.cache_resource`
decorator makes this lazy (it runs on first use, inside a request),
not a start-of-process check. -/
def get_llm (env : String → Option String) : Except String LLMClient :=
  let api_key := get_api_key env
  if api_key = "" then
    Except.error "Missing GROQ API key. Set GROQ_API_KEY (or \x27key\x27) in your .env"
  else
    Except.ok { model := "openai/gpt-oss-20b", groq_api_key := api_key }

/-- `call_llm`: obtains the client, then performs the single remote
invocation (`(llm | parser).invoke(prompt)`), abstracted as `net`. The
second component counts the network invocations performed, so a
credential failure is visibly raised before any network attempt. -/
def call_llm (env : String → Option String)
    (net : LLMClient → String → Except String String)
    (prompt : String) : Except String String × Nat :=
  match get_llm env with
  | Except.error e => (Except.error e, 0)
  | Except.ok llm => (net llm prompt, 1)

/-! ### Export block (src/main.py, download buttons) -/

/-- Outcome of the PDF branch: `skipped` when `REPORTLAB_AVAILABLE` is
false (the button is silently omitted), `built` when `doc.build`
succeeds, `failed` when the try block raises (the `st.info` notice is
shown). -/
inductive PdfOutcome where
  | skipped : PdfOutcome
  | built : String → PdfOutcome
  | failed : String → PdfOutcome
deriving DecidableEq, Repr

/-- The text handed to the reportlab `Paragraph`: paragraph breaks and
newlines converted to `<br/>` markup. -/
def pdf_source_text (lesson : String) : String :=
  (lesson.replace "\n\n" "<br/><br/>").replace "\n" "<br/>"

/-- The export block. Markdown and TXT payloads are both the raw
UTF-8 lesson text (identity transforms); the PDF branch runs only when
reportlab imported, and its failure produces the non-fatal `st.info`
notice. Nothing here writes to the session state. -/
structure ExportResult where
  md_name : String
  md_mime : String
  md_payload : String
  txt_name : String
  txt_mime : String
  txt_payload : String
  pdf : PdfOutcome
  pdf_notice : Option String
deriving DecidableEq, Repr

/-- The export section of src/main.py for the current lesson text. -/
def exportLesson (lesson : String) (reportlabAvailable : Bool)
    (engine : String → Except String String) : ExportResult :=
  let pdfRes :=
    if reportlabAvailable then
      match engine (pdf_source_text lesson) with
      | Except.ok doc => PdfOutcome.built doc
      | Except.error e => PdfOutcome.failed e
    else PdfOutcome.skipped
  { md_name := "lesson_plan.md", md_mime := "text/markdown", md_payload := lesson,
    txt_name := "lesson_plan.txt", txt_mime := "text/plain", txt_payload := lesson,
    pdf := pdfRes,
    pdf_notice :=
      match pdfRes with
      | PdfOutcome.failed _ =>
          some "⚠️ PDF export encountered an issue. You can still download Markdown/TXT."
      | _ => none }

/-! ### An executable substring check, used for concrete
(counter)examples without deep `Decidable` instances -/

/-- Boolean prefix test. -/
def isPre : List Char → List Char → Bool
  | [], _ => true
  | _ :: _, [] => false
  | a :: as, b :: bs => a == b && isPre as bs

/-- Boolean substring test. -/
def containsSub (pat : List Char) : List Char → Bool
  | [] => pat.isEmpty
  | c :: rest => isPre pat (c :: rest) || containsSub pat rest

/-- The example inputs offered by the sidebar toggle of src/main.py. -/
def exampleInput : InputSet :=
  { subject := "Science", topic := "The Solar System", grade := "5",
    duration := "1 hour",
    learning_objectives := "Students will be able to list the eight planets, describe their order from the sun, and compare two planets by size and composition.",
    customization := "Make it fun and interactive with a quick game and a hands-on mini-model activity.",
    difficulty := "Medium", language := "English" }

/-! ### The quiz template around the embedded lesson -/


/-- The quiz template text before the newline that precedes the lesson
line (same chunks as `quiz_prompt_raw`). -/
def quiz_pre_str (grade language difficulty : String) (n : Nat) : String :=
  "\n" ++
  "    You are an assessment designer. Based ONLY on the lesson plan content below, create a quiz." ++ "\n" ++
  "\n" ++
  "    - Number of questions: " ++ toString n ++ "\n" ++
  "    - Difficulty: " ++ difficulty ++ "\n" ++
  "    - Grade/Level: " ++ grade ++ "\n" ++
  "    - Language: " ++ language ++ "\n" ++
  "    - Mix question types: multiple choice, short answer, and 1 challenge question." ++ "\n" ++
  "    - For multiple choice, include 4 options labeled A–D." ++ "\n" ++
  "    - Provide an **Answer Key** at the end under a collapsible details block." ++ "\n" ++
  "    - Return the quiz as clean Markdown (no code fences)." ++ "\n" ++
  "\n" ++
  "    LESSON PLAN START" ++ "\n" ++
  "    ---"

/-- The quiz template text after the newline that follows the lesson
line. -/
def quiz_post_str : String := "    ---\n    LESSON PLAN END\n    "

/-! ### Basic lemmas about `splitLines` and `joinLines` -/

theorem str_data_append (a b : String) : (a ++ b).data = a.data ++ b.data := rfl

theorem newline_data : ("\n" : String).data = ['\n'] := rfl

theorem splitLines_ne_nil (cs : List Char) : splitLines cs ≠ [] := by
  cases cs with
  | nil => simp [splitLines]
  | cons c rest =>
    simp only [splitLines]
    split
    · simp
    · split <;> simp

theorem splitLines_exists_cons (cs : List Char) :
    ∃ l ls, splitLines cs = l :: ls := by
  cases h : splitLines cs with
  | nil => exact absurd h (splitLines_ne_nil cs)
  | cons l ls => exact ⟨l, ls, rfl⟩

theorem splitLines_newline (cs : List Char) :
    splitLines ('\n' :: cs) = [] :: splitLines cs := by
  simp [splitLines]

theorem splitLines_cons_of_ne (c : Char) (cs : List Char) (h : c ≠ '\n') :
    splitLines (c :: cs) = List.modifyHead (fun l => c :: l) (splitLines cs) := by
  obtain ⟨l, ls, hl⟩ := splitLines_exists_cons cs
  simp [splitLines, h, hl]

theorem splitLines_append_no_newline (a b : List Char) (h : '\n' ∉ a) :
    splitLines (a ++ b) = List.modifyHead (fun l => a ++ l) (splitLines b) := by
  induction a with
  | nil =>
    obtain ⟨l, ls, hl⟩ := splitLines_exists_cons b
    simp [hl]
  | cons c a ih =>
    have hc : c ≠ '\n' := fun hh => h (by simp [hh])
    have ha : '\n' ∉ a := fun hm => h (List.mem_cons_of_mem _ hm)
    obtain ⟨l, ls, hl⟩ := splitLines_exists_cons b
    rw [List.cons_append, splitLines_cons_of_ne c _ hc, ih ha, hl]
    simp

theorem splitLines_append_newline (a b : List Char) :
    splitLines (a ++ '\n' :: b) = splitLines a ++ splitLines b := by
  induction a with
  | nil => simp [splitLines_newline, splitLines]
  | cons c a ih =>
    by_cases hc : c = '\n'
    · subst hc
      rw [List.cons_append, splitLines_newline, splitLines_newline, ih]
      rfl
    · obtain ⟨l, ls, hl⟩ := splitLines_exists_cons a
      rw [List.cons_append, splitLines_cons_of_ne c _ hc,
        splitLines_cons_of_ne c _ hc, ih, hl]
      simp

theorem splitLines_no_newline (a : List Char) (h : '\n' ∉ a) :
    splitLines a = [a] := by
  have h2 := splitLines_append_no_newline a [] h
  simpa [splitLines] using h2

theorem joinLines_cons_cons (l l' : List Char) (ls : List (List Char)) :
    joinLines (l :: l' :: ls) = l ++ '\n' :: joinLines (l' :: ls) := rfl

theorem joinLines_append (A B : List (List Char)) (hA : A ≠ []) (hB : B ≠ []) :
    joinLines (A ++ B) = joinLines A ++ '\n' :: joinLines B := by
  induction A with
  | nil => simp at hA
  | cons l A ih =>
    cases A with
    | nil =>
      cases B with
      | nil => simp at hB
      | cons b bs => simp [joinLines_cons_cons, joinLines]
    | cons l2 A2 =>
      have h2 := ih (by simp)
      rw [List.cons_append, List.cons_append, joinLines_cons_cons,
        joinLines_cons_cons, ← List.cons_append, h2]
      simp

theorem joinLines_head_append (a l : List Char) (ls : List (List Char)) :
    joinLines ((a ++ l) :: ls) = a ++ joinLines (l :: ls) := by
  cases ls with
  | nil => rfl
  | cons l2 ls2 => rw [joinLines_cons_cons, joinLines_cons_cons]; simp

theorem joinLines_splitLines (cs : List Char) : joinLines (splitLines cs) = cs := by
  induction cs with
  | nil => rfl
  | cons c rest ih =>
    by_cases hc : c = '\n'
    · subst hc
      obtain ⟨l, ls, hl⟩ := splitLines_exists_cons rest
      rw [splitLines_newline, hl, joinLines_cons_cons, ← hl, ih]
      rfl
    · obtain ⟨l, ls, hl⟩ := splitLines_exists_cons rest
      rw [splitLines_cons_of_ne c rest hc, hl]
      cases ls with
      | nil =>
        have : joinLines [l] = rest := by rw [← hl, ih]
        simp only [List.modifyHead]
        simpa [joinLines] using this
      | cons l2 ls2 =>
        have : joinLines (l :: l2 :: ls2) = rest := by rw [← hl, ih]
        simp only [List.modifyHead]
        rw [joinLines_cons_cons] at this ⊢
        simp [← this]

theorem infix_joinLines {l : List Char} {ls : List (List Char)} (h : l ∈ ls) :
    l <:+: joinLines ls := by
  induction ls with
  | nil => simp at h
  | cons x ls ih =>
    rcases List.mem_cons.mp h with rfl | hmem
    · cases ls with
      | nil => exact List.infix_rfl
      | cons y ys =>
        rw [joinLines_cons_cons]
        exact ⟨[], '\n' :: joinLines (y :: ys), rfl⟩
    · cases ls with
      | nil => simp at hmem
      | cons y ys =>
        obtain ⟨s, t, ht⟩ := ih hmem
        rw [joinLines_cons_cons, ← ht]
        exact ⟨x ++ '\n' :: s, t, by simp⟩

/-! ### Lemmas about the dedent margin -/

theorem lcp_pre_left : ∀ a b : List Char, lcp a b <+: a
  | [], _ => by simp [lcp]
  | _ :: _, [] => by simp [lcp]
  | a :: as, b :: bs => by
    simp only [lcp]
    split
    · obtain ⟨t, ht⟩ := lcp_pre_left as bs
      exact ⟨t, by rw [List.cons_append, ht]⟩
    · exact List.nil_prefix

theorem lcp_pre_right : ∀ a b : List Char, lcp a b <+: b
  | [], _ => by simp [lcp]
  | _ :: _, [] => by simp [lcp]
  | a :: as, b :: bs => by
    simp only [lcp]
    split
    · next h =>
      obtain ⟨t, ht⟩ := lcp_pre_right as bs
      exact ⟨t, by rw [List.cons_append, ht, h]⟩
    · exact List.nil_prefix

theorem foldl_lcp_pre_init (is : List (List Char)) (i : List Char) :
    is.foldl lcp i <+: i := by
  induction is generalizing i with
  | nil => exact List.prefix_rfl
  | cons j is ih =>
    rw [List.foldl_cons]
    exact (ih (lcp i j)).trans (lcp_pre_left i j)

theorem foldl_lcp_pre (is : List (List Char)) (i x : List Char)
    (h : x ∈ i :: is) : is.foldl lcp i <+: x := by
  induction is generalizing i with
  | nil =>
    rw [List.mem_singleton] at h
    subst h
    exact List.prefix_rfl
  | cons j is ih =>
    rw [List.foldl_cons]
    rcases List.mem_cons.mp h with rfl | h2
    · exact (foldl_lcp_pre_init is (lcp x j)).trans (lcp_pre_left x j)
    · rcases List.mem_cons.mp h2 with rfl | h3
      · exact (foldl_lcp_pre_init is (lcp i x)).trans (lcp_pre_right i x)
      · exact ih (lcp i j) (List.mem_cons.mpr (Or.inr h3))

theorem marginOf_pre {lines : List (List Char)} {l : List Char}
    (hmem : l ∈ lines) (hne : l ≠ []) : marginOf lines <+: leadingWS l := by
  have h1 : l ∈ lines.filter (fun l => !l.isEmpty) := by
    refine List.mem_filter.mpr ⟨hmem, ?_⟩
    cases l with
    | nil => exact absurd rfl hne
    | cons c t => simp
  have h2 : leadingWS l ∈ (lines.filter (fun l => !l.isEmpty)).map leadingWS :=
    List.mem_map_of_mem _ h1
  unfold marginOf
  split
  · next heq => rw [heq] at h2; simp at h2
  · next i is heq => rw [heq] at h2; exact foldl_lcp_pre is i _ h2

theorem marginOf_eq_nil {lines : List (List Char)} {l : List Char}
    (hmem : l ∈ lines) (hne : l ≠ []) (hlead : leadingWS l = []) :
    marginOf lines = [] := by
  have h := marginOf_pre hmem hne
  rw [hlead] at h
  exact List.eq_nil_of_prefix_nil h

theorem stripLine_of_pre {m l : List Char} (h : m <+: l) :
    stripLine m l = l.drop m.length := by
  unfold stripLine
  rw [if_pos (by simpa using h)]

theorem stripLine_nil (l : List Char) : stripLine [] l = l := by
  simp [stripLine]

theorem normalizeLine_of_content {l : List Char} {c : Char}
    (hc : c ∈ l) (hw : isWS c = false) : normalizeLine l = l := by
  unfold normalizeLine isLineWS
  rw [if_neg]
  intro hI
  have := (List.all_eq_true.mp (Bool.and_elim_right hI)) c hc
  rw [hw] at this
  exact Bool.false_ne_true this

theorem normalizeLine_nil : normalizeLine [] = [] := rfl

theorem dedentChars_eq (cs : List Char) :
    dedentChars cs =
      joinLines (((splitLines cs).map normalizeLine).map
        (stripLine (marginOf ((splitLines cs).map normalizeLine)))) := rfl

theorem leadingWS_nil_of_head {c : Char} {t : List Char} (h : isWS c = false) :
    leadingWS (c :: t) = [] := by
  simp [leadingWS, List.takeWhile_cons, h]

/-! ### The master containment lemma: a dedented output keeps every
part of a content line that sits at or after the leading whitespace -/

theorem infix_of_suffix {a b : List Char} (h : a <:+ b) : a <:+: b := by
  obtain ⟨t, ht⟩ := h
  exact ⟨t, [], by simp [ht]⟩

theorem infix_extend_right {l A B : List Char} (h : l <:+: A) : l <:+: A ++ B := by
  obtain ⟨s, t, ht⟩ := h
  exact ⟨s, t ++ B, by simp [← ht]⟩

theorem infix_dedentChars {s ℓ cs : List Char}
    (hmem : ℓ ∈ splitLines cs)
    (hcontent : ∃ c ∈ ℓ, isWS c = false)
    (hs : s <:+: ℓ.drop (leadingWS ℓ).length) :
    s <:+: dedentChars cs := by
  obtain ⟨c, hcmem, hcws⟩ := hcontent
  have hnorm : normalizeLine ℓ = ℓ := normalizeLine_of_content hcmem hcws
  have hmem2 : ℓ ∈ (splitLines cs).map normalizeLine :=
    hnorm ▸ List.mem_map_of_mem normalizeLine hmem
  have hne : ℓ ≠ [] := by
    intro h
    subst h
    simp at hcmem
  have hpre : marginOf ((splitLines cs).map normalizeLine) <+: leadingWS ℓ :=
    marginOf_pre hmem2 hne
  have hpre2 : marginOf ((splitLines cs).map normalizeLine) <+: ℓ :=
    hpre.trans ( List.takeWhile_prefix _)
  have hlen : (marginOf ((splitLines cs).map normalizeLine)).length ≤
      (leadingWS ℓ).length := hpre.length_le
  have hstrip : stripLine (marginOf ((splitLines cs).map normalizeLine)) ℓ =
      ℓ.drop (marginOf ((splitLines cs).map normalizeLine)).length :=
    stripLine_of_pre hpre2
  have hmem3 : ℓ.drop (marginOf ((splitLines cs).map normalizeLine)).length ∈
      ((splitLines cs).map normalizeLine).map
        (stripLine (marginOf ((splitLines cs).map normalizeLine))) := by
    rw [← hstrip]
    exact List.mem_map_of_mem _ hmem2
  have hjoin := infix_joinLines hmem3
  rw [← dedentChars_eq] at hjoin
  have hdrop : ℓ.drop (leadingWS ℓ).length <:+
      ℓ.drop (marginOf ((splitLines cs).map normalizeLine)).length := by
    have harith := List.drop_drop
      ((leadingWS ℓ).length - (marginOf ((splitLines cs).map normalizeLine)).length)
      (marginOf ((splitLines cs).map normalizeLine)).length ℓ
    have heq : (marginOf ((splitLines cs).map normalizeLine)).length +
        ((leadingWS ℓ).length - (marginOf ((splitLines cs).map normalizeLine)).length) =
        (leadingWS ℓ).length := by omega
    rw [heq] at harith
    rw [← harith]
    exact List.drop_suffix _ _
  exact (hs.trans (infix_of_suffix hdrop)).trans hjoin

/-! ### Navigating `splitLines` of a template -/

theorem mem_splitLines_after {b : List Char} (a : List Char) {ℓ : List Char}
    (h : ℓ ∈ splitLines b) : ℓ ∈ splitLines (a ++ '\n' :: b) := by
  rw [splitLines_append_newline]
  exact List.mem_append_right _ h

theorem mem_splitLines_skip {b ℓ : List Char}
    (h : ℓ ∈ splitLines b) : ℓ ∈ splitLines ('\n' :: b) := by
  rw [splitLines_newline]
  exact List.mem_cons_of_mem _ h

theorem mem_splitLines_head {a b : List Char} (ha : '\n' ∉ a) :
    a ∈ splitLines (a ++ '\n' :: b) := by
  rw [splitLines_append_newline, splitLines_no_newline a ha]
  exact List.mem_append_left _ (List.mem_cons_self _ _)

/-! ### Walking the lines of a template -/

theorem mem_splitLines_tail {cs ℓ : List Char}
    (h : ℓ ∈ (splitLines cs).tail) : ℓ ∈ splitLines cs := by
  obtain ⟨l, ls, hl⟩ := splitLines_exists_cons cs
  rw [hl] at h ⊢
  exact List.mem_cons_of_mem _ h

theorem tail_skip_any (a : List Char) {b ℓ : List Char}
    (h : ℓ ∈ (splitLines b).tail) : ℓ ∈ (splitLines (a ++ b)).tail := by
  induction a with
  | nil => exact h
  | cons c a ih =>
    by_cases hc : c = '\n'
    · subst hc
      rw [List.cons_append, splitLines_newline]
      simpa using mem_splitLines_tail ih
    · rw [List.cons_append, splitLines_cons_of_ne c _ hc]
      obtain ⟨l, ls, hl⟩ := splitLines_exists_cons (a ++ b)
      rw [hl] at ih ⊢
      simpa using ih

theorem tail_skip_newline {b ℓ : List Char}
    (h : ℓ ∈ splitLines b) : ℓ ∈ (splitLines ('\n' :: b)).tail := by
  rw [splitLines_newline]
  simpa using h

theorem mem_splitLines_drop (a : List Char) {b ℓ : List Char}
    (h : ℓ ∈ (splitLines b).tail) : ℓ ∈ splitLines (a ++ b) :=
  mem_splitLines_tail (tail_skip_any a h)

theorem mem_splitLines_head2 {a b R : List Char} (ha : '\n' ∉ a) (hb : '\n' ∉ b) :
    (a ++ b) ∈ splitLines (a ++ (b ++ '\n' :: R)) := by
  rw [← List.append_assoc]
  refine mem_splitLines_head ?_
  intro hm
  rcases List.mem_append.mp hm with h | h
  · exact ha h
  · exact hb h

theorem mem_splitLines_head4 {a b c d R : List Char} (ha : '\n' ∉ a)
    (hb : '\n' ∉ b) (hc : '\n' ∉ c) (hd : '\n' ∉ d) :
    (a ++ (b ++ (c ++ d))) ∈ splitLines (a ++ (b ++ (c ++ (d ++ '\n' :: R)))) := by
  rw [← List.append_assoc, ← List.append_assoc]
  rw [← List.append_assoc, ← List.append_assoc, ← List.append_assoc]
  refine mem_splitLines_head ?_
  intro hm
  rcases List.mem_append.mp hm with h | h
  · rcases List.mem_append.mp h with h2 | h2
    · rcases List.mem_append.mp h2 with h3 | h3
      · exact ha h3
      · exact hb h3
    · exact hc h2
  · exact hd h

/-! ### Dropping the leading whitespace of a composite line -/

theorem leadingWS_append_left (x : List Char) {a : List Char}
    (h : ∃ c ∈ a, isWS c = false) : leadingWS (a ++ x) = leadingWS a := by
  induction a with
  | nil =>
    obtain ⟨c, hc, _⟩ := h
    simp at hc
  | cons c a ih =>
    by_cases hcw : isWS c
    · have h' : ∃ d ∈ a, isWS d = false := by
        obtain ⟨d, hd, hdw⟩ := h
        rcases List.mem_cons.mp hd with rfl | hd2
        · rw [hcw] at hdw
          cases hdw
        · exact ⟨d, hd2, hdw⟩
      rw [List.cons_append]
      unfold leadingWS at ih ⊢
      rw [List.takeWhile_cons, List.takeWhile_cons, hcw]
      simp only [if_true]
      rw [ih h']
    · rw [List.cons_append]
      unfold leadingWS
      rw [List.takeWhile_cons, List.takeWhile_cons, if_neg hcw, if_neg hcw]

theorem drop_leading_append (lit : String) (x : List Char)
    (hcontent : ∃ c ∈ lit.data, isWS c = false) :
    (lit.data ++ x).drop (leadingWS (lit.data ++ x)).length =
      lit.data.drop (leadingWS lit.data).length ++ x := by
  rw [leadingWS_append_left x hcontent]
  exact List.drop_append_of_le_length (( List.takeWhile_prefix _).length_le)

theorem infix_dedent_via_line {s ℓ : List Char} {raw : String}
    (hmem : ℓ ∈ splitLines raw.data)
    (hcontent : ∃ c ∈ ℓ, isWS c = false)
    (hs : s <:+: ℓ.drop (leadingWS ℓ).length) :
    s <:+: (dedent raw).data :=
  infix_dedentChars hmem hcontent hs



theorem isPre_iff : ∀ a b : List Char, isPre a b = true ↔ a <+: b
  | [], b => by simp [isPre]
  | a :: as, [] => by
    have h1 : isPre (a :: as) [] = false := rfl
    rw [h1]
    simp only [Bool.false_eq_true, false_iff]
    intro h
    have := h.length_le
    simp at this
  | a :: as, b :: bs => by
    simp [isPre, isPre_iff as bs, List.cons_prefix_cons]

theorem containsSub_iff : ∀ pat s : List Char,
    containsSub pat s = true ↔ pat <:+: s
  | pat, [] => by
    simp [containsSub, List.isEmpty_iff]
  | pat, c :: rest => by
    simp [containsSub, isPre_iff, containsSub_iff pat rest, List.infix_cons_iff]

/-! ### Decimal representations contain no newline -/

theorem digitChar_ne_newline (m : Nat) : Nat.digitChar m ≠ '\n' := by
  rcases Nat.lt_or_ge m 16 with h | h
  · interval_cases m <;> decide
  · have h0 : m ≠ 0 := by omega
    have h1 : m ≠ 1 := by omega
    have h2 : m ≠ 2 := by omega
    have h3 : m ≠ 3 := by omega
    have h4 : m ≠ 4 := by omega
    have h5 : m ≠ 5 := by omega
    have h6 : m ≠ 6 := by omega
    have h7 : m ≠ 7 := by omega
    have h8 : m ≠ 8 := by omega
    have h9 : m ≠ 9 := by omega
    have h10 : m ≠ 10 := by omega
    have h11 : m ≠ 11 := by omega
    have h12 : m ≠ 12 := by omega
    have h13 : m ≠ 13 := by omega
    have h14 : m ≠ 14 := by omega
    have h15 : m ≠ 15 := by omega
    unfold Nat.digitChar
    rw [if_neg h0, if_neg h1, if_neg h2, if_neg h3, if_neg h4, if_neg h5,
      if_neg h6, if_neg h7, if_neg h8, if_neg h9, if_neg h10, if_neg h11,
      if_neg h12, if_neg h13, if_neg h14, if_neg h15]
    decide

theorem toDigitsCore_ne_newline (b : Nat) : ∀ (fuel n : Nat) (ds : List Char),
    (∀ c ∈ ds, c ≠ '\n') → ∀ c ∈ Nat.toDigitsCore b fuel n ds, c ≠ '\n' := by
  intro fuel
  induction fuel with
  | zero =>
    intro n ds h c hc
    exact h c hc
  | succ fuel ih =>
    intro n ds h c hc
    simp only [Nat.toDigitsCore] at hc
    split at hc
    · rcases List.mem_cons.mp hc with rfl | h2
      · exact digitChar_ne_newline _
      · exact h c h2
    · refine ih _ _ ?_ c hc
      intro c' hc'
      rcases List.mem_cons.mp hc' with rfl | h2
      · exact digitChar_ne_newline _
      · exact h c' h2

theorem natToString_ne_newline (n : Nat) : '\n' ∉ (toString n).data := by
  intro h
  have h2 : (toString n).data = Nat.toDigitsCore 10 (n + 1) n [] := rfl
  rw [h2] at h
  exact toDigitsCore_ne_newline 10 (n + 1) n [] (by simp) '\n' h rfl

/-! ### Workflow claims -/



/-- C1: a successful requestLesson, from any workflow state, leaves exactly
the newly returned lesson artifact and no quiz artifact (state
`LessonReady`), discarding any previously held quiz artifact; and the
invariant that a quiz artifact is present only together with a lesson
artifact is preserved by every transition (its derivation from the
currently held lesson is the content of the C10 theorem). -/
theorem c1_lesson_success_state_and_invariant :
    (∀ (st : WorkflowState) (inp : InputSet) (llm : String → Except String String)
        (text : String), requiredFilled inp = true →
        llm (lessonPromptOf inp) = Except.ok text →
        requestLesson st inp llm =
          { state := { lesson_md := some text, quiz_md := none }, err := none,
            calls := [lessonPromptOf inp] }) ∧
    (∀ s s' : WorkflowState, WStep s s' → quizNeedsLesson s → quizNeedsLesson s') := by
  constructor
  · intro st inp llm text hval hok
    simp [requestLesson, hval, hok]
  · intro s s' hstep hinv
    cases hstep with
    | lesson inp llm =>
      cases hv : requiredFilled inp with
      | true =>
        cases hllm : llm (lessonPromptOf inp) with
        | ok t =>
          simp [requestLesson, hv, hllm, quizNeedsLesson]
        | error e =>
          simpa [requestLesson, hv, hllm] using hinv
      | false =>
        simpa [requestLesson, hv] using hinv
    | quiz grade language difficulty n llm =>
      cases hl : s.lesson_md with
      | none => simpa [requestQuiz, hl] using hinv
      | some lesson =>
        cases hllm : llm (build_quiz_prompt lesson grade language difficulty n) with
        | ok q => simp [requestQuiz, hl, hllm, quizNeedsLesson]
        | error e => simpa [requestQuiz, hl, hllm] using hinv
    | reset =>
      simp [resetWorkflow, quizNeedsLesson]

/-- Witness for C1 at concrete inputs: a new lesson over a state holding
both artifacts yields exactly the fresh lesson and no quiz, and the
presence invariant survives a concrete reset step. -/
theorem c1_witness :
    requestLesson { lesson_md := some "old lesson", quiz_md := some "old quiz" }
        exampleInput (fun _ => Except.ok "NEW LESSON") =
      { state := { lesson_md := some "NEW LESSON", quiz_md := none }, err := none,
        calls := [lessonPromptOf exampleInput] } ∧
    quizNeedsLesson resetWorkflow := by
  constructor
  · exact c1_lesson_success_state_and_invariant.1
      { lesson_md := some "old lesson", quiz_md := some "old quiz" }
      exampleInput (fun _ => Except.ok "NEW LESSON") "NEW LESSON" (by decide) rfl
  · exact c1_lesson_success_state_and_invariant.2
      { lesson_md := some "L", quiz_md := some "Q" } resetWorkflow
      (WStep.reset _) (by intro h; simp)

/-- C2: a failing completion call during lesson or quiz generation leaves
the workflow state untouched: the lesson handler keeps the old lesson and
even an existing quiz artifact, the quiz handler keeps the held lesson;
the failure surfaces as a `GenerationError` carrying the cause. -/
theorem c2_failure_preserves_state :
    (∀ (st : WorkflowState) (inp : InputSet) (llm : String → Except String String)
        (e : String), requiredFilled inp = true →
        llm (lessonPromptOf inp) = Except.error e →
        requestLesson st inp llm =
          { state := st, err := some (WErr.GenerationError e),
            calls := [lessonPromptOf inp] }) ∧
    (∀ (st : WorkflowState) (lesson grade language difficulty : String)
        (n : Nat) (llm : String → Except String String) (e : String),
        st.lesson_md = some lesson →
        llm (build_quiz_prompt lesson grade language difficulty n) = Except.error e →
        requestQuiz st grade language difficulty n llm =
          { state := st, err := some (WErr.GenerationError e),
            calls := [build_quiz_prompt lesson grade language difficulty n] }) := by
  constructor
  · intro st inp llm e hval herr
    simp [requestLesson, hval, herr]
  · intro st lesson grade language difficulty n llm e hl herr
    simp [requestQuiz, hl, herr]

/-- Witness for C2: concrete failing calls leave a two-artifact state and a
lesson-only state untouched. -/
theorem c2_witness :
    requestLesson { lesson_md := some "L0", quiz_md := some "Q0" } exampleInput
        (fun _ => Except.error "boom") =
      { state := { lesson_md := some "L0", quiz_md := some "Q0" },
        err := some (WErr.GenerationError "boom"),
        calls := [lessonPromptOf exampleInput] } ∧
    requestQuiz { lesson_md := some "L0", quiz_md := none } "5" "English" "Medium" 7
        (fun _ => Except.error "down") =
      { state := { lesson_md := some "L0", quiz_md := none },
        err := some (WErr.GenerationError "down"),
        calls := [build_quiz_prompt "L0" "5" "English" "Medium" 7] } := by
  constructor
  · exact c2_failure_preserves_state.1
      { lesson_md := some "L0", quiz_md := some "Q0" } exampleInput
      (fun _ => Except.error "boom") "boom" (by decide) rfl
  · exact c2_failure_preserves_state.2
      { lesson_md := some "L0", quiz_md := none } "L0" "5" "English" "Medium" 7
      (fun _ => Except.error "down") "down" rfl rfl

/-- C3: with any required field empty, requestLesson fails with
`ValidationError`, performs no completion call (`calls = []`) and leaves
the workflow state unchanged, for every starting state. -/
theorem c3_validation_error_no_call :
    ∀ (st : WorkflowState) (inp : InputSet) (llm : String → Except String String),
      requiredFilled inp = false →
      requestLesson st inp llm =
        { state := st, err := some WErr.ValidationError, calls := [] } := by
  intro st inp llm hval
  simp [requestLesson, hval]

/-- Witness for C3: an input with empty grade over a lesson-and-quiz state. -/
theorem c3_witness :
    requestLesson { lesson_md := some "L0", quiz_md := some "Q0" }
        { exampleInput with grade := "" } (fun _ => Except.ok "X") =
      { state := { lesson_md := some "L0", quiz_md := some "Q0" },
        err := some WErr.ValidationError, calls := [] } :=
  c3_validation_error_no_call { lesson_md := some "L0", quiz_md := some "Q0" }
    { exampleInput with grade := "" } (fun _ => Except.ok "X") (by decide)

/-- C4: requestQuiz without a held lesson artifact — in particular from
the `Empty` state — fails with `PreconditionError`, performs no
completion call and changes nothing. In src/main.py this precondition is
enforced by rendering the quiz button only when `lesson_md` is present;
the specification names that guard `PreconditionError` "no lesson
present". -/
theorem c4_quiz_needs_lesson :
    ∀ (st : WorkflowState) (grade language difficulty : String) (n : Nat)
      (llm : String → Except String String),
      st.lesson_md = none →
      requestQuiz st grade language difficulty n llm =
        { state := st, err := some WErr.PreconditionError, calls := [] } := by
  intro st grade language difficulty n llm hl
  simp [requestQuiz, hl]

/-- Witness for C4 from the `Empty` state. -/
theorem c4_witness :
    requestQuiz { lesson_md := none, quiz_md := none } "5" "English" "Medium" 7
        (fun _ => Except.ok "quiz") =
      { state := { lesson_md := none, quiz_md := none },
        err := some WErr.PreconditionError, calls := [] } :=
  c4_quiz_needs_lesson { lesson_md := none, quiz_md := none } "5" "English"
    "Medium" 7 (fun _ => Except.ok "quiz") rfl

/-- C10: a successful requestQuiz writes only the quiz slot — the held
lesson artifact is unchanged — and the single prompt sent is built from
the lesson text currently in state together with the grade, language,
difficulty and question count supplied at quiz-request time. -/
theorem c10_quiz_frame_effect :
    ∀ (st : WorkflowState) (lesson grade language difficulty : String) (n : Nat)
      (llm : String → Except String String) (q : String),
      st.lesson_md = some lesson →
      llm (build_quiz_prompt lesson grade language difficulty n) = Except.ok q →
      requestQuiz st grade language difficulty n llm =
        { state := { lesson_md := st.lesson_md, quiz_md := some q }, err := none,
          calls := [build_quiz_prompt lesson grade language difficulty n] } := by
  intro st lesson grade language difficulty n llm q hl hok
  simp [requestQuiz, hl, hok]

/-- Witness for C10 at concrete values. -/
theorem c10_witness :
    requestQuiz { lesson_md := some "L0", quiz_md := none } "5" "English"
        "Medium" 7 (fun _ => Except.ok "THE QUIZ") =
      { state := { lesson_md := some "L0", quiz_md := some "THE QUIZ" },
        err := none, calls := [build_quiz_prompt "L0" "5" "English" "Medium" 7] } :=
  c10_quiz_frame_effect { lesson_md := some "L0", quiz_md := none } "L0" "5"
    "English" "Medium" 7 (fun _ => Except.ok "THE QUIZ") "THE QUIZ" rfl rfl

/-! ### Claims about the prompt builders -/

theorem tail_skip_char (c : Char) {b ℓ : List Char}
    (h : ℓ ∈ (splitLines b).tail) : ℓ ∈ (splitLines (c :: b)).tail :=
  tail_skip_any [c] h

theorem difficulty_guidance_no_newline (d : String) :
    '\n' ∉ (difficulty_guidance d).data := by
  unfold difficulty_guidance
  split_ifs <;> decide

/-- C7: the prompt builder is total in the difficulty: the three table
entries Easy/Medium/Hard give their fixed guidance clauses, any other
difficulty string gives the generic fallback clause, and for every
difficulty value (with no embedded newline) the selected guidance clause
appears verbatim in the built lesson prompt — no failure path exists. -/
theorem c7_difficulty_guidance_total :
    difficulty_guidance "Easy" =
      "Use simple language, foundational explainers, and concrete everyday examples." ∧
    difficulty_guidance "Medium" =
      "Use balanced depth, some technical vocabulary, and 1–2 brief real-world examples." ∧
    difficulty_guidance "Hard" =
      "Use advanced terminology, deeper conceptual links, and include extension tasks for high achievers." ∧
    (∀ d : String, d ≠ "Easy" → d ≠ "Medium" → d ≠ "Hard" →
      difficulty_guidance d = "Use balanced language and depth.") ∧
    (∀ subject topic grade duration learning_objectives customization d
        language : String, '\n' ∉ d.data →
      (difficulty_guidance d).data <:+:
        (build_lesson_prompt subject topic grade duration learning_objectives
          customization d language).data) := by
  refine ⟨rfl, rfl, rfl, ?_, ?_⟩
  · intro d h1 h2 h3
    unfold difficulty_guidance
    rw [if_neg h1, if_neg h2, if_neg h3]
  · intro subject topic grade duration lo cust d language hd
    have hg := difficulty_guidance_no_newline d
    have hmem : ("    - Difficulty level: ".data ++ (d.data ++ (". ".data ++
        (difficulty_guidance d).data))) ∈
        splitLines (lesson_prompt_raw subject topic grade duration lo cust
          d language).data := by
      unfold lesson_prompt_raw
      repeat rw [str_data_append]
      rw [newline_data]
      repeat rw [List.append_assoc]
      repeat rw [List.singleton_append]
      apply mem_splitLines_skip
      apply mem_splitLines_after
      apply mem_splitLines_skip
      apply mem_splitLines_after
      apply mem_splitLines_drop
      apply tail_skip_any
      apply tail_skip_char
      apply tail_skip_newline
      apply mem_splitLines_drop
      apply tail_skip_any
      apply tail_skip_newline
      apply mem_splitLines_drop
      apply tail_skip_any
      apply tail_skip_newline
      exact mem_splitLines_head4 (by decide) hd (by decide) hg
    refine infix_dedent_via_line hmem ?_ ?_
    · exact ⟨'-', List.mem_append.mpr (Or.inl (by decide)), by decide⟩
    · rw [drop_leading_append "    - Difficulty level: " _ ⟨'-', by decide, by decide⟩]
      exact ⟨"    - Difficulty level: ".data.drop
          (leadingWS "    - Difficulty level: ".data).length ++ d.data ++ ". ".data,
        [], by simp⟩

/-- Witness for C7: the fallback clause for a difficulty outside the
table, and the guidance clause contained in a concrete prompt. -/
theorem c7_witness :
    difficulty_guidance "Expert" = "Use balanced language and depth." ∧
    (difficulty_guidance "Medium").data <:+:
      (build_lesson_prompt "Science" "The Solar System" "5" "1 hour"
        "list the planets" "fun" "Medium" "English").data := by
  constructor
  · exact c7_difficulty_guidance_total.2.2.2.1 "Expert"
      (by decide) (by decide) (by decide)
  · exact c7_difficulty_guidance_total.2.2.2.2 "Science" "The Solar System" "5"
      "1 hour" "list the planets" "fun" "Medium" "English" (by decide)

theorem mem_splitLines_head3c {a b : List Char} {c : Char} {R : List Char}
    (ha : '\n' ∉ a) (hb : '\n' ∉ b) (hc : c ≠ '\n') :
    (a ++ (b ++ [c])) ∈ splitLines (a ++ (b ++ (c :: '\n' :: R))) := by
  have he : a ++ (b ++ (c :: '\n' :: R)) = (a ++ (b ++ [c])) ++ '\n' :: R := by simp
  rw [he]
  refine mem_splitLines_head ?_
  intro hm
  rcases List.mem_append.mp hm with h | h
  · exact ha h
  · rcases List.mem_append.mp h with h2 | h2
    · exact hb h2
    · simp at h2
      exact hc h2.symm

/-- C5 (amended): for every valid InputSet whose grade, duration and
language contain no newline (grade and duration come from single-line
inputs, language from a fixed enumeration), the built lesson prompt
contains the grade, duration and language values verbatim and contains
the ten required section headers; the tenth header reads "Safety/Notes"
as in the source, not "Safety Notes" as the claim words it. -/
theorem c5_lesson_prompt_contents (subject topic grade duration
    learning_objectives customization difficulty language : String)
    (hval : requiredFilled
      { subject := subject, topic := topic, grade := grade,
        duration := duration, learning_objectives := learning_objectives,
        customization := customization, difficulty := difficulty,
        language := language } = true)
    (hgrade : '\n' ∉ grade.data) (hdur : '\n' ∉ duration.data)
    (hlang : '\n' ∉ language.data) :
    ∀ s ∈ ["Title & Overview", "Learning Objectives", "Required Materials",
      "Prior Knowledge", "Lesson Flow with Time Boxes", "Interactive Activities",
      "Differentiation", "Assessment", "Homework", "Safety/Notes",
      grade, duration, language],
      s.data <:+: (build_lesson_prompt subject topic grade duration
        learning_objectives customization difficulty language).data := by
  intro s hs
  simp only [List.mem_cons, List.not_mem_nil, or_false] at hs
  rcases hs with h | h | h | h | h | h | h | h | h | h | h | h | h <;> rw [h]
  · refine infix_dedent_via_line
      (ℓ := "    1. Title & Overview (1–2 sentences)".data) ?_ (by decide) (by decide)
    unfold lesson_prompt_raw
    repeat rw [str_data_append]
    rw [newline_data]
    repeat rw [List.append_assoc]
    repeat rw [List.singleton_append]
    apply mem_splitLines_skip
    apply mem_splitLines_after
    apply mem_splitLines_skip
    apply mem_splitLines_after
    apply mem_splitLines_drop
    apply tail_skip_any
    apply tail_skip_char
    apply tail_skip_newline
    apply mem_splitLines_drop
    apply tail_skip_any
    apply tail_skip_newline
    apply mem_splitLines_drop
    apply tail_skip_any
    apply tail_skip_newline
    apply mem_splitLines_drop
    apply tail_skip_any
    apply tail_skip_any
    apply tail_skip_any
    apply tail_skip_newline
    apply mem_splitLines_after
    apply mem_splitLines_after
    apply mem_splitLines_skip
    apply mem_splitLines_after
    exact mem_splitLines_head (by decide)
  · refine infix_dedent_via_line
      (ℓ := "    2. Learning Objectives (bulleted, measurable)".data) ?_ (by decide) (by decide)
    unfold lesson_prompt_raw
    repeat rw [str_data_append]
    rw [newline_data]
    repeat rw [List.append_assoc]
    repeat rw [List.singleton_append]
    apply mem_splitLines_skip
    apply mem_splitLines_after
    apply mem_splitLines_skip
    apply mem_splitLines_after
    apply mem_splitLines_drop
    apply tail_skip_any
    apply tail_skip_char
    apply tail_skip_newline
    apply mem_splitLines_drop
    apply tail_skip_any
    apply tail_skip_newline
    apply mem_splitLines_drop
    apply tail_skip_any
    apply tail_skip_newline
    apply mem_splitLines_drop
    apply tail_skip_any
    apply tail_skip_any
    apply tail_skip_any
    apply tail_skip_newline
    apply mem_splitLines_after
    apply mem_splitLines_after
    apply mem_splitLines_skip
    apply mem_splitLines_after
    apply mem_splitLines_after
    exact mem_splitLines_head (by decide)
  · refine infix_dedent_via_line
      (ℓ := "    3. Required Materials (bulleted)".data) ?_ (by decide) (by decide)
    unfold lesson_prompt_raw
    repeat rw [str_data_append]
    rw [newline_data]
    repeat rw [List.append_assoc]
    repeat rw [List.singleton_append]
    apply mem_splitLines_skip
    apply mem_splitLines_after
    apply mem_splitLines_skip
    apply mem_splitLines_after
    apply mem_splitLines_drop
    apply tail_skip_any
    apply tail_skip_char
    apply tail_skip_newline
    apply mem_splitLines_drop
    apply tail_skip_any
    apply tail_skip_newline
    apply mem_splitLines_drop
    apply tail_skip_any
    apply tail_skip_newline
    apply mem_splitLines_drop
    apply tail_skip_any
    apply tail_skip_any
    apply tail_skip_any
    apply tail_skip_newline
    apply mem_splitLines_after
    apply mem_splitLines_after
    apply mem_splitLines_skip
    apply mem_splitLines_after
    apply mem_splitLines_after
    apply mem_splitLines_after
    exact mem_splitLines_head (by decide)
  · refine infix_dedent_via_line
      (ℓ := "    4. Prior Knowledge (short)".data) ?_ (by decide) (by decide)
    unfold lesson_prompt_raw
    repeat rw [str_data_append]
    rw [newline_data]
    repeat rw [List.append_assoc]
    repeat rw [List.singleton_append]
    apply mem_splitLines_skip
    apply mem_splitLines_after
    apply mem_splitLines_skip
    apply mem_splitLines_after
    apply mem_splitLines_drop
    apply tail_skip_any
    apply tail_skip_char
    apply tail_skip_newline
    apply mem_splitLines_drop
    apply tail_skip_any
    apply tail_skip_newline
    apply mem_splitLines_drop
    apply tail_skip_any
    apply tail_skip_newline
    apply mem_splitLines_drop
    apply tail_skip_any
    apply tail_skip_any
    apply tail_skip_any
    apply tail_skip_newline
    apply mem_splitLines_after
    apply mem_splitLines_after
    apply mem_splitLines_skip
    apply mem_splitLines_after
    apply mem_splitLines_after
    apply mem_splitLines_after
    apply mem_splitLines_after
    exact mem_splitLines_head (by decide)
  · refine infix_dedent_via_line
      (ℓ := "    5. Lesson Flow with Time Boxes (table: Step | Time | What to do | Teacher notes)".data) ?_ (by decide) (by decide)
    unfold lesson_prompt_raw
    repeat rw [str_data_append]
    rw [newline_data]
    repeat rw [List.append_assoc]
    repeat rw [List.singleton_append]
    apply mem_splitLines_skip
    apply mem_splitLines_after
    apply mem_splitLines_skip
    apply mem_splitLines_after
    apply mem_splitLines_drop
    apply tail_skip_any
    apply tail_skip_char
    apply tail_skip_newline
    apply mem_splitLines_drop
    apply tail_skip_any
    apply tail_skip_newline
    apply mem_splitLines_drop
    apply tail_skip_any
    apply tail_skip_newline
    apply mem_splitLines_drop
    apply tail_skip_any
    apply tail_skip_any
    apply tail_skip_any
    apply tail_skip_newline
    apply mem_splitLines_after
    apply mem_splitLines_after
    apply mem_splitLines_skip
    apply mem_splitLines_after
    apply mem_splitLines_after
    apply mem_splitLines_after
    apply mem_splitLines_after
    apply mem_splitLines_after
    exact mem_splitLines_head (by decide)
  · refine infix_dedent_via_line
      (ℓ := "    6. Interactive Activities (2–3 activities; include clear instructions)".data) ?_ (by decide) (by decide)
    unfold lesson_prompt_raw
    repeat rw [str_data_append]
    rw [newline_data]
    repeat rw [List.append_assoc]
    repeat rw [List.singleton_append]
    apply mem_splitLines_skip
    apply mem_splitLines_after
    apply mem_splitLines_skip
    apply mem_splitLines_after
    apply mem_splitLines_drop
    apply tail_skip_any
    apply tail_skip_char
    apply tail_skip_newline
    apply mem_splitLines_drop
    apply tail_skip_any
    apply tail_skip_newline
    apply mem_splitLines_drop
    apply tail_skip_any
    apply tail_skip_newline
    apply mem_splitLines_drop
    apply tail_skip_any
    apply tail_skip_any
    apply tail_skip_any
    apply tail_skip_newline
    apply mem_splitLines_after
    apply mem_splitLines_after
    apply mem_splitLines_skip
    apply mem_splitLines_after
    apply mem_splitLines_after
    apply mem_splitLines_after
    apply mem_splitLines_after
    apply mem_splitLines_after
    apply mem_splitLines_after
    exact mem_splitLines_head (by decide)
  · refine infix_dedent_via_line
      (ℓ := "    7. Differentiation & Accommodations (for mixed ability learners)".data) ?_ (by decide) (by decide)
    unfold lesson_prompt_raw
    repeat rw [str_data_append]
    rw [newline_data]
    repeat rw [List.append_assoc]
    repeat rw [List.singleton_append]
    apply mem_splitLines_skip
    apply mem_splitLines_after
    apply mem_splitLines_skip
    apply mem_splitLines_after
    apply mem_splitLines_drop
    apply tail_skip_any
    apply tail_skip_char
    apply tail_skip_newline
    apply mem_splitLines_drop
    apply tail_skip_any
    apply tail_skip_newline
    apply mem_splitLines_drop
    apply tail_skip_any
    apply tail_skip_newline
    apply mem_splitLines_drop
    apply tail_skip_any
    apply tail_skip_any
    apply tail_skip_any
    apply tail_skip_newline
    apply mem_splitLines_after
    apply mem_splitLines_after
    apply mem_splitLines_skip
    apply mem_splitLines_after
    apply mem_splitLines_after
    apply mem_splitLines_after
    apply mem_splitLines_after
    apply mem_splitLines_after
    apply mem_splitLines_after
    apply mem_splitLines_after
    exact mem_splitLines_head (by decide)
  · refine infix_dedent_via_line
      (ℓ := "    8. Assessment (formative + one quick exit ticket)".data) ?_ (by decide) (by decide)
    unfold lesson_prompt_raw
    repeat rw [str_data_append]
    rw [newline_data]
    repeat rw [List.append_assoc]
    repeat rw [List.singleton_append]
    apply mem_splitLines_skip
    apply mem_splitLines_after
    apply mem_splitLines_skip
    apply mem_splitLines_after
    apply mem_splitLines_drop
    apply tail_skip_any
    apply tail_skip_char
    apply tail_skip_newline
    apply mem_splitLines_drop
    apply tail_skip_any
    apply tail_skip_newline
    apply mem_splitLines_drop
    apply tail_skip_any
    apply tail_skip_newline
    apply mem_splitLines_drop
    apply tail_skip_any
    apply tail_skip_any
    apply tail_skip_any
    apply tail_skip_newline
    apply mem_splitLines_after
    apply mem_splitLines_after
    apply mem_splitLines_skip
    apply mem_splitLines_after
    apply mem_splitLines_after
    apply mem_splitLines_after
    apply mem_splitLines_after
    apply mem_splitLines_after
    apply mem_splitLines_after
    apply mem_splitLines_after
    apply mem_splitLines_after
    exact mem_splitLines_head (by decide)
  · refine infix_dedent_via_line
      (ℓ := "    9. Homework or Extension".data) ?_ (by decide) (by decide)
    unfold lesson_prompt_raw
    repeat rw [str_data_append]
    rw [newline_data]
    repeat rw [List.append_assoc]
    repeat rw [List.singleton_append]
    apply mem_splitLines_skip
    apply mem_splitLines_after
    apply mem_splitLines_skip
    apply mem_splitLines_after
    apply mem_splitLines_drop
    apply tail_skip_any
    apply tail_skip_char
    apply tail_skip_newline
    apply mem_splitLines_drop
    apply tail_skip_any
    apply tail_skip_newline
    apply mem_splitLines_drop
    apply tail_skip_any
    apply tail_skip_newline
    apply mem_splitLines_drop
    apply tail_skip_any
    apply tail_skip_any
    apply tail_skip_any
    apply tail_skip_newline
    apply mem_splitLines_after
    apply mem_splitLines_after
    apply mem_splitLines_skip
    apply mem_splitLines_after
    apply mem_splitLines_after
    apply mem_splitLines_after
    apply mem_splitLines_after
    apply mem_splitLines_after
    apply mem_splitLines_after
    apply mem_splitLines_after
    apply mem_splitLines_after
    apply mem_splitLines_after
    exact mem_splitLines_head (by decide)
  · refine infix_dedent_via_line
      (ℓ := "    10. Safety/Notes (if applicable)".data) ?_ (by decide) (by decide)
    unfold lesson_prompt_raw
    repeat rw [str_data_append]
    rw [newline_data]
    repeat rw [List.append_assoc]
    repeat rw [List.singleton_append]
    apply mem_splitLines_skip
    apply mem_splitLines_after
    apply mem_splitLines_skip
    apply mem_splitLines_after
    apply mem_splitLines_drop
    apply tail_skip_any
    apply tail_skip_char
    apply tail_skip_newline
    apply mem_splitLines_drop
    apply tail_skip_any
    apply tail_skip_newline
    apply mem_splitLines_drop
    apply tail_skip_any
    apply tail_skip_newline
    apply mem_splitLines_drop
    apply tail_skip_any
    apply tail_skip_any
    apply tail_skip_any
    apply tail_skip_newline
    apply mem_splitLines_after
    apply mem_splitLines_after
    apply mem_splitLines_skip
    apply mem_splitLines_after
    apply mem_splitLines_after
    apply mem_splitLines_after
    apply mem_splitLines_after
    apply mem_splitLines_after
    apply mem_splitLines_after
    apply mem_splitLines_after
    apply mem_splitLines_after
    apply mem_splitLines_after
    apply mem_splitLines_after
    exact mem_splitLines_head (by decide)
  · refine infix_dedent_via_line
      (ℓ := "    - Tailor to grade/level: ".data ++ grade.data) ?_
      ⟨'-', List.mem_append.mpr (Or.inl (by decide)), by decide⟩ ?_
    · unfold lesson_prompt_raw
      repeat rw [str_data_append]
      rw [newline_data]
      repeat rw [List.append_assoc]
      repeat rw [List.singleton_append]
      apply mem_splitLines_skip
      apply mem_splitLines_after
      apply mem_splitLines_skip
      apply mem_splitLines_after
      apply mem_splitLines_drop
      apply tail_skip_any
      apply tail_skip_char
      apply tail_skip_newline
      exact mem_splitLines_head2 (by decide) hgrade
    · rw [drop_leading_append "    - Tailor to grade/level: " _
        ⟨'-', by decide, by decide⟩]
      exact ⟨"    - Tailor to grade/level: ".data.drop
        (leadingWS "    - Tailor to grade/level: ".data).length, [], by simp⟩
  · refine infix_dedent_via_line
      (ℓ := "    - Total duration: ".data ++ duration.data) ?_
      ⟨'-', List.mem_append.mpr (Or.inl (by decide)), by decide⟩ ?_
    · unfold lesson_prompt_raw
      repeat rw [str_data_append]
      rw [newline_data]
      repeat rw [List.append_assoc]
      repeat rw [List.singleton_append]
      apply mem_splitLines_skip
      apply mem_splitLines_after
      apply mem_splitLines_skip
      apply mem_splitLines_after
      apply mem_splitLines_drop
      apply tail_skip_any
      apply tail_skip_char
      apply tail_skip_newline
      apply mem_splitLines_drop
      apply tail_skip_any
      apply tail_skip_newline
      exact mem_splitLines_head2 (by decide) hdur
    · rw [drop_leading_append "    - Total duration: " _
        ⟨'-', by decide, by decide⟩]
      exact ⟨"    - Total duration: ".data.drop
        (leadingWS "    - Total duration: ".data).length, [], by simp⟩
  · refine infix_dedent_via_line
      (ℓ := "    - Write the ENTIRE output in ".data ++ (language.data ++ ['.'])) ?_
      ⟨'-', List.mem_append.mpr (Or.inl (by decide)), by decide⟩ ?_
    · unfold lesson_prompt_raw
      repeat rw [str_data_append]
      rw [newline_data]
      repeat rw [List.append_assoc]
      repeat rw [List.singleton_append]
      apply mem_splitLines_skip
      apply mem_splitLines_after
      apply mem_splitLines_skip
      apply mem_splitLines_after
      exact mem_splitLines_head3c (by decide) hlang (by decide)
    · rw [drop_leading_append "    - Write the ENTIRE output in " _
        ⟨'-', by decide, by decide⟩]
      exact ⟨"    - Write the ENTIRE output in ".data.drop
        (leadingWS "    - Write the ENTIRE output in ".data).length, ['.'], by simp⟩

/-- Witness for C5 at the example inputs, instantiated at the tenth
header. -/
theorem c5_witness :
    "Safety/Notes".data <:+: (build_lesson_prompt "Science" "The Solar System"
      "5" "1 hour" "list the planets" "fun" "Medium" "English").data :=
  c5_lesson_prompt_contents "Science" "The Solar System" "5" "1 hour"
    "list the planets" "fun" "Medium" "English" (by decide) (by decide)
    (by decide) (by decide) "Safety/Notes" (by decide)

set_option maxRecDepth 40000 in
/-- C5 counterexample: at the concrete valid example InputSet the built
lesson prompt does not contain "Safety Notes" anywhere, so the claim as
worded (with "Safety Notes" among the ten required headers) fails; the
source emits "Safety/Notes". -/
theorem c5_counterexample :
    ¬ ("Safety Notes".data <:+: (build_lesson_prompt "Science" "The Solar System"
      "5" "1 hour" "list the planets" "fun" "Medium" "English").data) := by
  intro h
  have h2 : containsSub "Safety Notes".data (build_lesson_prompt "Science"
      "The Solar System" "5" "1 hour" "list the planets" "fun" "Medium"
      "English").data = true := (containsSub_iff _ _).mpr h
  have h3 : containsSub "Safety Notes".data (build_lesson_prompt "Science"
      "The Solar System" "5" "1 hour" "list the planets" "fun" "Medium"
      "English").data = false := rfl
  rw [h2] at h3
  cases h3

/-! ### Credential and export claims -/

/-- C8 (amended): the credential is read from the environment under the
primary name `GROQ_API_KEY` with the legacy fallback name `key`, the
primary taking precedence and empty values counting as absent; when
neither resolves, the client loader fails with its distinct
configuration message and performs zero network invocations — but this
happens lazily at first use inside a generation request, not at process
startup. -/
theorem c8_credential_lookup :
    (∀ (env : String → Option String) (k : String),
        env "GROQ_API_KEY" = some k → k ≠ "" → get_api_key env = k) ∧
    (∀ (env : String → Option String) (k : String),
        (env "GROQ_API_KEY" = none ∨ env "GROQ_API_KEY" = some "") →
        env "key" = some k → k ≠ "" → get_api_key env = k) ∧
    (∀ (env : String → Option String)
        (net : LLMClient → String → Except String String) (prompt : String),
        get_api_key env = "" →
        call_llm env net prompt =
          (Except.error "Missing GROQ API key. Set GROQ_API_KEY (or \x27key\x27) in your .env",
            0)) := by
  refine ⟨?_, ?_, ?_⟩
  · intro env k hk hne
    simp [get_api_key, pyOr, hk, hne]
  · intro env k hg hk hne
    rcases hg with hg | hg <;> simp [get_api_key, pyOr, hg, hk, hne]
  · intro env net prompt hempty
    simp [call_llm, get_llm, hempty]

/-- Witness for C8: primary precedence over the legacy name, legacy
fallback, and the distinct zero-network failure with both unset. -/
theorem c8_witness :
    get_api_key (fun v => if v = "GROQ_API_KEY" then some "k1" else some "k2") = "k1" ∧
    get_api_key (fun v => if v = "key" then some "legacy" else none) = "legacy" ∧
    call_llm (fun _ => none) (fun _ _ => Except.ok "resp") "prompt" =
      (Except.error "Missing GROQ API key. Set GROQ_API_KEY (or \x27key\x27) in your .env",
        0) := by
  refine ⟨?_, ?_, ?_⟩
  · exact c8_credential_lookup.1 _ "k1" rfl (by decide)
  · exact c8_credential_lookup.2.1 _ "legacy" (Or.inl rfl) rfl (by decide)
  · exact c8_credential_lookup.2.2 _ _ "prompt" rfl

/-- C8 counterexample: with neither variable set, the missing-credential
failure surfaces as the `GenerationError` of an individual lesson
request — the per-request error path, on first use — not as a
startup-time failure, contradicting the claim's "not as a per-request
error". -/
theorem c8_counterexample :
    (requestLesson { lesson_md := none, quiz_md := none } exampleInput
      (fun p => (call_llm (fun _ => none) (fun _ _ => Except.ok "resp") p).1)).err =
      some (WErr.GenerationError
        "Missing GROQ API key. Set GROQ_API_KEY (or \x27key\x27) in your .env") := rfl

/-- C9 (amended): export is best-effort and loses nothing: the markdown
and plain-text payloads are always the untouched lesson text under the
fixed filenames; when reportlab is available and the engine raises, the
failure is reported with the non-fatal user-visible notice; when
reportlab is unavailable the PDF option is silently omitted — no notice
is shown, contrary to the claim's wording for that case. -/
theorem c9_export_behaviour :
    ∀ (lesson : String) (available : Bool) (engine : String → Except String String),
      (exportLesson lesson available engine).md_payload = lesson ∧
      (exportLesson lesson available engine).txt_payload = lesson ∧
      (exportLesson lesson available engine).md_name = "lesson_plan.md" ∧
      (exportLesson lesson available engine).txt_name = "lesson_plan.txt" ∧
      (available = true → ∀ e, engine (pdf_source_text lesson) = Except.error e →
        (exportLesson lesson available engine).pdf = PdfOutcome.failed e ∧
        (exportLesson lesson available engine).pdf_notice =
          some "⚠️ PDF export encountered an issue. You can still download Markdown/TXT.") ∧
      (available = false →
        (exportLesson lesson available engine).pdf = PdfOutcome.skipped ∧
        (exportLesson lesson available engine).pdf_notice = none) := by
  intro lesson available engine
  refine ⟨rfl, rfl, rfl, rfl, ?_, ?_⟩
  · intro ha e he
    subst ha
    constructor <;> simp [exportLesson, he]
  · intro ha
    subst ha
    constructor <;> simp [exportLesson]

/-- Witness for C9: a concrete failing engine yields the notice while the
markdown payload stays the lesson text. -/
theorem c9_witness :
    (exportLesson "# My Lesson" true (fun _ => Except.error "LayoutError")).pdf_notice =
      some "⚠️ PDF export encountered an issue. You can still download Markdown/TXT." ∧
    (exportLesson "# My Lesson" true (fun _ => Except.error "LayoutError")).md_payload =
      "# My Lesson" := by
  constructor
  · exact ((c9_export_behaviour "# My Lesson" true
      (fun _ => Except.error "LayoutError")).2.2.2.2.1 rfl "LayoutError" rfl).2
  · exact (c9_export_behaviour "# My Lesson" true
      (fun _ => Except.error "LayoutError")).1

/-- C9 counterexample: with the formatting engine unavailable, nothing is
reported — the PDF branch is skipped with no user-visible
ExportUnavailable signal, contradicting the claim for the
engine-unavailable case. -/
theorem c9_counterexample :
    (exportLesson "hello" false (fun _ => Except.error "boom")).pdf_notice = none ∧
    (exportLesson "hello" false (fun _ => Except.error "boom")).pdf =
      PdfOutcome.skipped :=
  ⟨rfl, rfl⟩



set_option maxRecDepth 8192 in
theorem quiz_raw_split (lesson grade language difficulty : String) (n : Nat) :
    (quiz_prompt_raw lesson grade language difficulty n).data =
      (quiz_pre_str grade language difficulty n).data ++ '\n' ::
        ("    ".data ++ (lesson.data ++ '\n' :: quiz_post_str.data)) := by
  unfold quiz_prompt_raw quiz_pre_str
  repeat rw [str_data_append]
  rw [newline_data]
  repeat rw [List.append_assoc]
  repeat rw [List.singleton_append]
  rw [show quiz_post_str.data = "    ---".data ++ '\n' ::
    ("    LESSON PLAN END".data ++ '\n' :: "    ".data) from by decide]

theorem map_normalize_id {L : List (List Char)}
    (h : ∀ l ∈ L, normalizeLine l = l) : L.map normalizeLine = L := by
  induction L with
  | nil => rfl
  | cons x L ih =>
    rw [List.map_cons, h x (List.mem_cons_self _ _),
      ih (fun l hl => h l (List.mem_cons_of_mem _ hl))]

theorem assemble_around (A p x j : List Char) :
    A ++ '\n' :: (p ++ (x ++ '\n' :: j)) = (A ++ '\n' :: p) ++ x ++ ('\n' :: j) := by
  simp

theorem join_around_lesson (A : List (List Char)) (hA : A ≠ [])
    (p4 l0 : List Char) (ls : List (List Char)) (lesson : List Char)
    (hsplit : splitLines lesson = l0 :: ls) :
    joinLines (A ++ ((p4 ++ l0) :: (ls ++
        ["    ---".data, "    LESSON PLAN END".data, []]))) =
      joinLines A ++ '\n' :: (p4 ++ (lesson ++ '\n' ::
        "    ---\n    LESSON PLAN END\n".data)) := by
  have hBne : ((p4 ++ l0) :: (ls ++
      ["    ---".data, "    LESSON PLAN END".data, []])) ≠ [] := by simp
  rw [joinLines_append A _ hA hBne]
  congr 1
  congr 1
  rw [joinLines_head_append]
  congr 1
  rw [show l0 :: (ls ++ ["    ---".data, "    LESSON PLAN END".data, []]) =
      (l0 :: ls) ++ ["    ---".data, "    LESSON PLAN END".data, []] from rfl,
    joinLines_append (l0 :: ls)
      ["    ---".data, "    LESSON PLAN END".data, []] (by simp) (by simp),
    ← hsplit, joinLines_splitLines,
    show joinLines ["    ---".data, "    LESSON PLAN END".data, []] =
      "    ---\n    LESSON PLAN END\n".data from by decide]

/-- C6 (amended): the built quiz prompt always states the exact requested
question count; and it embeds the full unmodified lesson text between
the LESSON PLAN START and LESSON PLAN END markers provided the lesson
text survives `textwrap.dedent` unscathed: no line of it is whitespace
only and non-empty, its first line has a non-whitespace character, and
some later line starts with a non-whitespace character (typical
markdown). Without
these provisos dedent rewrites the embedded lesson, refuting the claim
as stated. -/
theorem c6_quiz_prompt_embedding (lesson grade language difficulty : String)
    (n : Nat) :
    (("- Number of questions: ".data ++ (toString n).data) <:+:
      (build_quiz_prompt lesson grade language difficulty n).data) ∧
    ((∀ ℓ ∈ splitLines lesson.data, ℓ = [] ∨ ∃ c ∈ ℓ, isWS c = false) →
     (∃ c ∈ (splitLines lesson.data).headD [], isWS c = false) →
     (∃ ℓ ∈ (splitLines lesson.data).tail, isWS (ℓ.headD ' ') = false) →
     ∃ pre post,
       (build_quiz_prompt lesson grade language difficulty n).data =
         pre ++ lesson.data ++ post ∧
       "LESSON PLAN START".data <:+: pre ∧
       "LESSON PLAN END".data <:+: post) := by
  constructor
  · refine infix_dedent_via_line
      (ℓ := "    - Number of questions: ".data ++ (toString n).data) ?_
      ⟨'-', List.mem_append.mpr (Or.inl (by decide)), by decide⟩ ?_
    · unfold quiz_prompt_raw
      repeat rw [str_data_append]
      rw [newline_data]
      repeat rw [List.append_assoc]
      repeat rw [List.singleton_append]
      apply mem_splitLines_skip
      apply mem_splitLines_after
      apply mem_splitLines_skip
      exact mem_splitLines_head2 (by decide) (natToString_ne_newline n)
    · rw [drop_leading_append "    - Number of questions: " _
        ⟨'-', by decide, by decide⟩,
        show "    - Number of questions: ".data.drop
          (leadingWS "    - Number of questions: ".data).length =
          "- Number of questions: ".data from by decide]
  · intro h1 h2 h3
    obtain ⟨l0, ls, hsplit⟩ := splitLines_exists_cons lesson.data
    have hbuild : (build_quiz_prompt lesson grade language difficulty n).data =
        dedentChars (quiz_prompt_raw lesson grade language difficulty n).data := by
      unfold build_quiz_prompt dedent
      with_reducible rfl
    have hsplitT : splitLines (quiz_prompt_raw lesson grade language
        difficulty n).data =
        splitLines (quiz_pre_str grade language difficulty n).data ++
          (("    ".data ++ l0) :: (ls ++ splitLines quiz_post_str.data)) := by
      rw [quiz_raw_split, splitLines_append_newline,
        splitLines_append_no_newline "    ".data
          (lesson.data ++ '\n' :: quiz_post_str.data) (by decide),
        splitLines_append_newline, hsplit]
      rfl
    obtain ⟨ℓ3, hℓ3mem, hc3h⟩ := h3
    obtain ⟨c3, t3, rfl⟩ : ∃ c t, ℓ3 = c :: t := by
      cases ℓ3 with
      | nil => exact absurd hc3h (by decide)
      | cons c t => exact ⟨c, t, rfl⟩
    have hc3 : isWS c3 = false := by simpa using hc3h
    have hℓ3ls : c3 :: t3 ∈ ls := by
      rw [hsplit] at hℓ3mem
      simpa using hℓ3mem
    have hℓ3T : c3 :: t3 ∈ splitLines (quiz_prompt_raw lesson grade language
        difficulty n).data := by
      rw [hsplitT]
      exact List.mem_append_right _
        (List.mem_cons_of_mem _ (List.mem_append_left _ hℓ3ls))
    have hnorm3 : normalizeLine (c3 :: t3) = c3 :: t3 :=
      normalizeLine_of_content (List.mem_cons_self _ _) hc3
    have hmargin : marginOf ((splitLines (quiz_prompt_raw lesson grade language
        difficulty n).data).map normalizeLine) = [] := by
      refine marginOf_eq_nil (l := c3 :: t3)
        (hnorm3 ▸ List.mem_map_of_mem normalizeLine hℓ3T) (by simp)
        (leadingWS_nil_of_head hc3)
    have hded : (build_quiz_prompt lesson grade language difficulty n).data =
        joinLines ((splitLines (quiz_prompt_raw lesson grade language
          difficulty n).data).map normalizeLine) := by
      rw [hbuild, dedentChars_eq, hmargin,
        show stripLine ([] : List Char) = id from funext stripLine_nil,
        List.map_id]
    have hl0content : ∃ c ∈ "    ".data ++ l0, isWS c = false := by
      rw [hsplit] at h2
      obtain ⟨c, hc, hcw⟩ := h2
      exact ⟨c, List.mem_append_right _ (by simpa using hc), hcw⟩
    have hlsid : List.map normalizeLine ls = ls := by
      refine map_normalize_id ?_
      intro ℓ hℓ
      rcases h1 ℓ (by rw [hsplit]; exact List.mem_cons_of_mem _ hℓ) with hE | hC
      · rw [hE]
        rfl
      · obtain ⟨c, hc, hw⟩ := hC
        exact normalizeLine_of_content hc hw
    have hl0norm : normalizeLine ("    ".data ++ l0) = "    ".data ++ l0 := by
      obtain ⟨c, hcmem, hcw⟩ := hl0content
      exact normalizeLine_of_content hcmem hcw
    have hmapnorm : ((splitLines (quiz_prompt_raw lesson grade language
        difficulty n).data).map normalizeLine) =
        ((splitLines (quiz_pre_str grade language difficulty n).data).map
          normalizeLine) ++
          (("    ".data ++ l0) :: (ls ++
            ["    ---".data, "    LESSON PLAN END".data, []])) := by
      rw [hsplitT, List.map_append, List.map_cons, List.map_append, hl0norm, hlsid,
        show (splitLines quiz_post_str.data).map normalizeLine =
          ["    ---".data, "    LESSON PLAN END".data, []] from by decide]
    have hNPREne : ((splitLines (quiz_pre_str grade language difficulty n).data).map
        normalizeLine) ≠ [] := by
      simp [splitLines_ne_nil]
    have hjoin := join_around_lesson
      ((splitLines (quiz_pre_str grade language difficulty n).data).map
        normalizeLine) hNPREne "    ".data l0 ls lesson.data hsplit
    have hSTART : "    LESSON PLAN START".data ∈
        splitLines (quiz_pre_str grade language difficulty n).data := by
      unfold quiz_pre_str
      repeat rw [str_data_append]
      rw [newline_data]
      repeat rw [List.append_assoc]
      repeat rw [List.singleton_append]
      apply mem_splitLines_skip
      apply mem_splitLines_after
      apply mem_splitLines_skip
      apply mem_splitLines_drop
      apply tail_skip_any
      apply tail_skip_newline
      apply mem_splitLines_drop
      apply tail_skip_any
      apply tail_skip_newline
      apply mem_splitLines_drop
      apply tail_skip_any
      apply tail_skip_newline
      apply mem_splitLines_drop
      apply tail_skip_any
      apply tail_skip_newline
      apply mem_splitLines_after
      apply mem_splitLines_after
      apply mem_splitLines_after
      apply mem_splitLines_after
      apply mem_splitLines_skip
      exact mem_splitLines_head (by decide)
    have hSTARTnorm : "    LESSON PLAN START".data ∈
        ((splitLines (quiz_pre_str grade language difficulty n).data).map
          normalizeLine) := by
      have hn : normalizeLine "    LESSON PLAN START".data =
          "    LESSON PLAN START".data := by decide
      exact List.mem_map.mpr ⟨_, hSTART, hn⟩
    have hfinal : (build_quiz_prompt lesson grade language difficulty n).data =
        (joinLines ((splitLines (quiz_pre_str grade language difficulty
          n).data).map normalizeLine) ++ '\n' :: "    ".data) ++ lesson.data ++
          ('\n' :: "    ---\n    LESSON PLAN END\n".data) :=
      (hded.trans ((congrArg joinLines hmapnorm).trans hjoin)).trans
        (assemble_around _ _ _ _)
    refine ⟨joinLines ((splitLines (quiz_pre_str grade language difficulty
        n).data).map normalizeLine) ++ '\n' :: "    ".data,
      '\n' :: "    ---\n    LESSON PLAN END\n".data, hfinal, ?_, ?_⟩
    · have hfull : "    LESSON PLAN START".data <:+:
          joinLines ((splitLines (quiz_pre_str grade language difficulty
            n).data).map normalizeLine) := infix_joinLines hSTARTnorm
      have hsub : "LESSON PLAN START".data <:+: "    LESSON PLAN START".data :=
        ⟨"    ".data, [], by simp⟩
      exact infix_extend_right (hsub.trans hfull)
    · decide

/-- Witness for C6 at a concrete markdown-shaped lesson text and the
example settings: the prompt states the count and embeds the lesson
verbatim. -/
theorem c6_witness :
    (("- Number of questions: ".data ++ (toString 7).data) <:+:
      (build_quiz_prompt "# Title\n\n- point one" "5" "English" "Medium" 7).data) ∧
    ("# Title\n\n- point one".data <:+:
      (build_quiz_prompt "# Title\n\n- point one" "5" "English" "Medium" 7).data) := by
  have h := c6_quiz_prompt_embedding "# Title\n\n- point one" "5" "English"
    "Medium" 7
  refine ⟨h.1, ?_⟩
  obtain ⟨pre, post, heq, _, _⟩ := h.2 (by decide) (by decide) (by decide)
  exact ⟨pre, post, heq.symm⟩

set_option maxRecDepth 40000 in
/-- C6 counterexample: for the two-line lesson text "a\n  b" (second line
indented two spaces) the full unmodified lesson text appears nowhere in
the built quiz prompt: `textwrap.dedent` computes margin two from the
embedded lesson and rewrites it to "a\nb", refuting the claim for every
lesson text and question count. -/
theorem c6_counterexample :
    ¬ ("a\n  b".data <:+:
      (build_quiz_prompt "a\n  b" "5" "English" "Medium" 7).data) := by
  intro h
  have h2 : containsSub "a\n  b".data
      (build_quiz_prompt "a\n  b" "5" "English" "Medium" 7).data = true :=
    (containsSub_iff _ _).mpr h
  have h3 : containsSub "a\n  b".data
      (build_quiz_prompt "a\n  b" "5" "English" "Medium" 7).data = false := rfl
  rw [h2] at h3
  cases h3
